import Mathlib

/-!
Shallow embedding of the task-lifecycle and notification scheduler of
`src/bot.py` (the MadsMinder bot): the escalation ("threat") scan, the
one-shot reminder scan, the completion/celebration reaction handler and
the streak computation.

Instants are modelled as integer seconds.  An ISO-timestamp column is
modelled by `TsField` (absent / malformed / valid instant) and
`parse_iso` mirrors the source's `parse_iso` (src/bot.py:291-296):
absent or unparsable strings give `none`.  SQLite's `DATE(...)` applied
to a stored UTC ISO timestamp yields the UTC calendar day; this is
modelled by `utcDay` / `sqlDate` (day = floor of the instant by 86400).

Each row's `UPDATE ... WHERE id=?` in the scans touches only that row
(`id` is the primary key) and each row's decision reads only that row's
columns, so the escalation scan is the per-row step `scanTask` mapped
over the table (`threat_scan`).  The reminder scan is sequential because
a `bot.fetch_user` exception propagates out of the row loop through the
`try/finally` and aborts the remaining rows of that tick.
-/

namespace Madsminder

/-- A stored timestamp column: SQL `NULL` (or empty string), an
unparsable string, or a string parsing to an instant (seconds). -/
inductive TsField where
  | absent
  | malformed
  | valid (t : Int)
deriving DecidableEq

/-- `parse_iso` (src/bot.py:291-296): falsy input and parse failures
give `None`, otherwise the parsed instant. -/
def parse_iso : TsField → Option Int
  | TsField.absent => none
  | TsField.malformed => none
  | TsField.valid t => some t

/-- The UTC calendar day of an instant, as extracted by SQLite
`DATE(...)` from the stored UTC ISO timestamp. -/
def utcDay (t : Int) : Int := Int.fdiv t 86400

/-- `DATE(column)` for a timestamp column: `NULL` on absent or
unparsable input, else the UTC calendar day. -/
def sqlDate : TsField → Option Int
  | TsField.valid t => some (utcDay t)
  | _ => none

/-- `THREAT_GRACE_MINUTES` default (src/bot.py:44). -/
def THREAT_GRACE_MINUTES : Int := 360

/-- `THREAT_COOLDOWN_MINUTES` default (src/bot.py:45). -/
def THREAT_COOLDOWN_MINUTES : Int := 180

/-- `MAX_THREATS_PER_TASK` default (src/bot.py:46). -/
def MAX_THREATS_PER_TASK : Nat := 5

/-- `CELEBRATE_THRESHOLD` default (src/bot.py:50). -/
def CELEBRATE_THRESHOLD : Nat := 6

/-- A row of the `tasks` table (src/bot.py:214-237), with the timestamp
columns already classified by parsability. -/
structure Task where
  id : Nat
  user_id : String
  done : Bool
  message_id : String
  channel_id : String
  created_at : TsField
  last_threat_at : TsField
  due_at : TsField
  threat_count : Option Nat
  closed : Bool
  completed_at : TsField
deriving DecidableEq

/-- `threat_count or 0` / `COALESCE(threat_count, 0)`. -/
def threatCountVal (t : Task) : Nat := t.threat_count.getD 0

/-- The escalation decision of one `threat_scan` row (src/bot.py:828-845):
the SQL filter `done=0`, the `closed` skip, the `created_at` parse
guard, the cap check, the readiness gate (deadline if `due_at` parses,
otherwise `(now - created).total_seconds()/60 >= GRACE`, i.e.
`now - created >= 60*GRACE`), and the cooldown gate. -/
def ready_to_escalate (now : Int) (t : Task) : Bool :=
  !t.done && !t.closed &&
    (match parse_iso t.created_at with
     | none => false
     | some created =>
       decide (threatCountVal t < MAX_THREATS_PER_TASK) &&
         (match parse_iso t.due_at with
          | some due => decide (due ≤ now)
          | none => decide (THREAT_GRACE_MINUTES * 60 ≤ now - created)) &&
         (match parse_iso t.last_threat_at with
          | none => true
          | some last => decide (THREAT_COOLDOWN_MINUTES * 60 ≤ now - last)))

/-- One `threat_scan` row transition (src/bot.py:832-856).  `env t.id`
tells whether the escalation delivery (channel fetch, message fetch and
reply) succeeds for this task at this tick.  Returns the written-back
row and whether an escalation notification was dispatched.  On delivery
success: `last_threat_at=now`, `threat_count=COALESCE(threat_count,0)+1`.
On delivery failure: `closed=1`, `last_threat_at=now`. -/
def scanTask (env : Nat → Bool) (now : Int) (t : Task) : Task × Bool :=
  if ready_to_escalate now t = true then
    if env t.id = true then
      ({ t with last_threat_at := TsField.valid now,
                threat_count := some (threatCountVal t + 1) }, true)
    else
      ({ t with closed := true, last_threat_at := TsField.valid now }, false)
  else (t, false)

/-- A full escalation scan tick: each row is read, decided and written
back independently (per-row `UPDATE ... WHERE id=?` on the primary
key), so the tick is the per-row step mapped over the table. -/
def threat_scan (env : Nat → Bool) (now : Int) (ts : List Task) : List (Task × Bool) :=
  ts.map (scanTask env now)

/-- A sequence of escalation-scan ticks acting on one row; each tick
carries its instant and its delivery outcome `env`. -/
def runScans : List (Int × (Nat → Bool)) → Task → Task
  | [], t => t
  | tick :: rest, t => runScans rest (scanTask tick.2 tick.1 t).1

/-- A row of the `reminders` table (src/bot.py:239-249). -/
structure Reminder where
  id : Nat
  user_id : String
  channel_id : String
  text : String
  remind_at : TsField
  sent : Bool
deriving DecidableEq

/-- Delivery environment of one reminder-scan tick: whether
`bot.fetch_user` succeeds, whether the direct message succeeds, and
whether the fallback channel post succeeds, per reminder id. -/
structure REnv where
  fetchOk : Nat → Bool
  dmOk : Nat → Bool
  chanOk : Nat → Bool

/-- What happened for one processed reminder. -/
inductive RAttempt where
  | dmSuccess
  | dmFailChanSuccess
  | dmFailChanFail
  | fetchFail
deriving DecidableEq

/-- One `reminder_scan` tick (src/bot.py:859-879).  The SQL filter keeps
`sent=0` rows; a row whose `remind_at` fails to parse or is in the
future is skipped.  Otherwise `fetch_user` runs inside `try/finally`:
on success the DM is attempted with a caught fallback to the channel,
and `sent=1` is written; if `fetch_user` raises, the `finally` still
writes `sent=1` but the exception propagates and aborts the remaining
rows of this tick.  Returns the written-back table and the log of
per-reminder outcomes. -/
def reminder_scan (env : REnv) (now : Int) : List Reminder → List Reminder × List (Nat × RAttempt)
  | [] => ([], [])
  | r :: rs =>
    if r.sent = true then
      let rest := reminder_scan env now rs
      (r :: rest.1, rest.2)
    else
      match parse_iso r.remind_at with
      | none =>
        let rest := reminder_scan env now rs
        (r :: rest.1, rest.2)
      | some due =>
        if now < due then
          let rest := reminder_scan env now rs
          (r :: rest.1, rest.2)
        else if env.fetchOk r.id = true then
          let att : RAttempt :=
            if env.dmOk r.id = true then RAttempt.dmSuccess
            else if env.chanOk r.id = true then RAttempt.dmFailChanSuccess
            else RAttempt.dmFailChanFail
          let rest := reminder_scan env now rs
          ({ r with sent := true } :: rest.1, (r.id, att) :: rest.2)
        else
          ({ r with sent := true } :: rs, [(r.id, RAttempt.fetchFail)])

/-- `completed_on_date` (src/bot.py:894-900): does the user have a row
with `done=1` and `DATE(completed_at)` equal to the given day. -/
def completed_on_date (tasks : List Task) (uid : String) (day : Int) : Bool :=
  tasks.any (fun t => t.user_id == uid && t.done && (sqlDate t.completed_at == some day))

/-- The backward walk of `compute_streak` (src/bot.py:902-914): fuel is
the remaining iterations of `for _ in range(365)`. -/
def streakAux (p : Int → Bool) : Nat → Int → Nat
  | 0, _ => 0
  | n + 1, day => if p day = true then streakAux p n (day - 1) + 1 else 0

/-- `compute_streak` (src/bot.py:902-914): count consecutive days
backwards from `end_day` inclusive with at least one completion,
stopping after at most 365 iterations. -/
def compute_streak (tasks : List Task) (uid : String) (end_day : Int) : Nat :=
  streakAux (completed_on_date tasks uid) 365 end_day

/-- The celebration-check count (src/bot.py:768-772):
`COUNT(*) ... WHERE user_id=? AND done=1 AND DATE(completed_at)=?`. -/
def done_count (tasks : List Task) (uid : String) (day : Int) : Nat :=
  (tasks.filter (fun t => t.user_id == uid && t.done && (sqlDate t.completed_at == some day))).length

/-- Modelled from the spec: the calendar day of an instant in the
configured time zone, represented by that zone's UTC offset in
seconds (the code itself never converts `completed_at` to the
configured zone). -/
def localDay (tzOffset t : Int) : Int := Int.fdiv (t + tzOffset) 86400

/-- Modelled from the spec: `DATE(...)` taken in the configured time
zone instead of UTC. -/
def sqlDateLocal (tzOffset : Int) : TsField → Option Int
  | TsField.valid t => some (localDay tzOffset t)
  | _ => none

/-- Modelled from the spec: "count of Commitments with `done=true` and
`completed_at`'s calendar day (local time zone) equal to today for that
user" — the completion count with bucketing by configured-time-zone
day. -/
def done_count_spec (tzOffset : Int) (tasks : List Task) (uid : String) (day : Int) : Nat :=
  (tasks.filter (fun t => t.user_id == uid && t.done && (sqlDateLocal tzOffset t.completed_at == some day))).length

/-- The task contributes a completion on the given UTC calendar day. -/
def completedOnUtcDay (t : Task) (day : Int) : Prop :=
  ∃ c, t.completed_at = TsField.valid c ∧ utcDay c = day

instance instDecidableCompletedOnUtcDay (t : Task) (day : Int) :
    Decidable (completedOnUtcDay t day) :=
  match h : t.completed_at with
  | TsField.valid c =>
    if hd : utcDay c = day then
      Decidable.isTrue ⟨c, h, hd⟩
    else
      Decidable.isFalse (fun ⟨c', hc', hd'⟩ => by
        rw [h] at hc'; cases hc'; exact hd hd')
  | TsField.absent =>
    Decidable.isFalse (fun ⟨c', hc', _⟩ => by rw [h] at hc'; cases hc')
  | TsField.malformed =>
    Decidable.isFalse (fun ⟨c', hc', _⟩ => by rw [h] at hc'; cases hc')

/-- A row of the `celebrations` table (src/bot.py:251-258);
`(user_id, task_date)` is the primary key. -/
structure Celebration where
  user_id : String
  task_date : Int
  sent : Bool
deriving DecidableEq

/-- `SELECT sent FROM celebrations WHERE user_id=? AND task_date=?`
with `fetchone` (first matching row). -/
def lookupCeleb : List Celebration → String → Int → Option Bool
  | [], _, _ => none
  | c :: cs, u, d =>
    if c.user_id == u && c.task_date == d then some c.sent
    else lookupCeleb cs u d

/-- The `DO UPDATE SET sent=1` arm of the upsert: set `sent` on every
row with the key (it is the primary key, so at most one exists). -/
def setSentAll : List Celebration → String → Int → List Celebration
  | [], _, _ => []
  | c :: cs, u, d =>
    (if c.user_id == u && c.task_date == d then { c with sent := true } else c)
      :: setSentAll cs u d

/-- `INSERT INTO celebrations(user_id, task_date, sent) VALUES(?, ?, 1)
ON CONFLICT(user_id, task_date) DO UPDATE SET sent=1` (src/bot.py:788-792). -/
def upsertCeleb (cs : List Celebration) (u : String) (d : Int) : List Celebration :=
  if cs.any (fun c => c.user_id == u && c.task_date == d) = true then
    setSentAll cs u d
  else
    cs ++ [{ user_id := u, task_date := d, sent := true }]

/-- The store as seen by the reaction handler. -/
structure Store where
  tasks : List Task
  celebrations : List Celebration
deriving DecidableEq

/-- The checkmark emoji compared against `str(payload.emoji)`. -/
def CHECKMARK : String := "✅"

/-- The `done` write of the reaction handler (src/bot.py:754-759): if
the first row found for the message is not yet done, every row with
that `message_id` gets `done=1, completed_at=now` (the `UPDATE` is
keyed on `message_id`); otherwise nothing is written. -/
def markDone (tasks : List Task) (msgId : String) (now : Int) (row : Task) : List Task :=
  if row.done = true then tasks
  else tasks.map (fun t =>
    if t.message_id == msgId then
      { t with done := true, completed_at := TsField.valid now }
    else t)

/-- `on_raw_reaction_add` (src/bot.py:742-794).  Guards: wrong emoji,
no task row for the message (`fetchone` on `message_id`), reactor is
not the owner.  Then the `done` write (`markDone`).  `tickOk` is
whether the subsequent channel/user fetch and confirmation send
succeed; if they raise, the handler aborts before the celebration
check.  Otherwise: `done_count` for (`payload.user_id`, today) is
computed, the celebrations row is read, and if the threshold is met
and no `sent=1` row exists, the celebration is dispatched (send
failures are swallowed) and the row is upserted with `sent=1`.
Returns the store and whether a celebration was dispatched. -/
def on_raw_reaction_add (tickOk : Bool) (st : Store) (emoji msgId uid : String)
    (now today : Int) : Store × Bool :=
  if emoji ≠ CHECKMARK then (st, false)
  else
    match st.tasks.find? (fun t => t.message_id == msgId) with
    | none => (st, false)
    | some row =>
      if uid ≠ row.user_id then (st, false)
      else if tickOk = false then
        ({ st with tasks := markDone st.tasks msgId now row }, false)
      else if CELEBRATE_THRESHOLD ≤ done_count (markDone st.tasks msgId now row) uid today ∧
          (lookupCeleb st.celebrations uid today = none ∨
            lookupCeleb st.celebrations uid today = some false) then
        ({ tasks := markDone st.tasks msgId now row,
           celebrations := upsertCeleb st.celebrations uid today }, true)
      else
        ({ st with tasks := markDone st.tasks msgId now row }, false)

/-- A task already completed (terminal for escalation). -/
def exTaskDone : Task :=
  { id := 1, user_id := "u", done := true, message_id := "m1", channel_id := "c",
    created_at := TsField.valid 0, last_threat_at := TsField.absent,
    due_at := TsField.absent, threat_count := some 0, closed := false,
    completed_at := TsField.valid 100 }

/-- An open task with a deadline in the past and one old escalation. -/
def exTaskOpen : Task :=
  { id := 2, user_id := "u", done := false, message_id := "m2", channel_id := "c",
    created_at := TsField.valid 0, last_threat_at := TsField.valid 0,
    due_at := TsField.valid 1000, threat_count := some 2, closed := false,
    completed_at := TsField.absent }

/-- A freshly created open task with no deadline. -/
def exTaskFresh : Task :=
  { id := 3, user_id := "u", done := false, message_id := "m3", channel_id := "c",
    created_at := TsField.valid 0, last_threat_at := TsField.absent,
    due_at := TsField.absent, threat_count := some 0, closed := false,
    completed_at := TsField.absent }

/-- An overdue open task whose stored `due_at` string is unparsable. -/
def exTaskBadDue : Task :=
  { id := 4, user_id := "u", done := false, message_id := "m4", channel_id := "c",
    created_at := TsField.valid 0, last_threat_at := TsField.absent,
    due_at := TsField.malformed, threat_count := some 0, closed := false,
    completed_at := TsField.absent }

/-- An open task whose stored `created_at` string is unparsable. -/
def exTaskBadCreated : Task :=
  { id := 5, user_id := "u", done := false, message_id := "m5", channel_id := "c",
    created_at := TsField.malformed, last_threat_at := TsField.absent,
    due_at := TsField.absent, threat_count := some 0, closed := false,
    completed_at := TsField.absent }

/-- A due, unsent reminder (processed first in the example scan). -/
def exRemStale : Reminder :=
  { id := 1, user_id := "u1", channel_id := "c", text := "a",
    remind_at := TsField.valid 0, sent := false }

/-- A second due, unsent reminder sitting behind `exRemStale`. -/
def exRemNext : Reminder :=
  { id := 2, user_id := "u2", channel_id := "c", text := "b",
    remind_at := TsField.valid 0, sent := false }

/-- A due, unsent reminder used on the all-success path. -/
def exRemW : Reminder :=
  { id := 3, user_id := "u3", channel_id := "c", text := "note",
    remind_at := TsField.valid 0, sent := false }

/-- Delivery environment where `bot.fetch_user` raises for every row. -/
def exREnvNoFetch : REnv :=
  { fetchOk := fun _ => false, dmOk := fun _ => true, chanOk := fun _ => true }

/-- Delivery environment where every external call succeeds. -/
def exREnvAll : REnv :=
  { fetchOk := fun _ => true, dmOk := fun _ => true, chanOk := fun _ => true }

/-- One completed task per UTC day `k`, `k = 0, …, 365`. -/
def mkStreakTask (k : Nat) : Task :=
  { id := 1000 + k, user_id := "", done := true, message_id := "", channel_id := "",
    created_at := TsField.valid 0, last_threat_at := TsField.absent,
    due_at := TsField.absent, threat_count := some 0, closed := false,
    completed_at := TsField.valid (86400 * (k : Int)) }

/-- A store with completions on 366 consecutive UTC days. -/
def streakTasks : List Task := (List.range 366).map mkStreakTask

/-- A single completed task on UTC day 0. -/
def exTaskC4 : Task :=
  { id := 40, user_id := "", done := true, message_id := "m40", channel_id := "c",
    created_at := TsField.valid 0, last_threat_at := TsField.absent,
    due_at := TsField.absent, threat_count := some 0, closed := false,
    completed_at := TsField.valid 0 }

/-- A task completed at 01:00 UTC of day 0 (20:00 of the previous day
in New York standard time). -/
def exTaskC5 : Task :=
  { id := 50, user_id := "", done := true, message_id := "m50", channel_id := "c",
    created_at := TsField.valid 0, last_threat_at := TsField.absent,
    due_at := TsField.absent, threat_count := some 0, closed := false,
    completed_at := TsField.valid 3600 }

/-- New York standard-time UTC offset in seconds (the default
configured time zone of the bot). -/
def NY_OFFSET : Int := -18000

/-- A store that already celebrated (user "u", day 0). -/
def exStoreCeleb : Store :=
  { tasks := [], celebrations := [{ user_id := "u", task_date := 0, sent := true }] }

/-- A store holding one open task anchored to message "m2". -/
def exStoreTasks : Store :=
  { tasks := [exTaskOpen], celebrations := [] }

theorem ready_false_of_terminal (now : Int) (t : Task)
    (h : t.done = true ∨ t.closed = true) : ready_to_escalate now t = false := by
  rcases h with h | h <;> simp [ready_to_escalate, h]

theorem scanTask_of_not_ready (env : Nat → Bool) (now : Int) (t : Task)
    (h : ready_to_escalate now t = false) : scanTask env now t = (t, false) := by
  simp [scanTask, h]

theorem ready_count_lt (now : Int) (t : Task)
    (h : ready_to_escalate now t = true) :
    threatCountVal t < MAX_THREATS_PER_TASK := by
  unfold ready_to_escalate at h
  rcases hcr : parse_iso t.created_at with _ | created
  · rw [hcr] at h; simp at h
  · rw [hcr] at h
    simp only [Bool.and_eq_true, decide_eq_true_eq] at h
    tauto

theorem scanTask_count_le (env : Nat → Bool) (now : Int) (t : Task) :
    threatCountVal t ≤ threatCountVal (scanTask env now t).1 := by
  unfold scanTask
  by_cases h : ready_to_escalate now t = true
  · rw [if_pos h]
    by_cases he : env t.id = true
    · rw [if_pos he]; exact Nat.le_succ _
    · rw [if_neg he]; exact Nat.le_refl _
  · rw [if_neg h]

theorem scanTask_count_cap (env : Nat → Bool) (now : Int) (t : Task)
    (h : threatCountVal t ≤ MAX_THREATS_PER_TASK) :
    threatCountVal (scanTask env now t).1 ≤ MAX_THREATS_PER_TASK := by
  unfold scanTask
  by_cases hr : ready_to_escalate now t = true
  · have hlt := ready_count_lt now t hr
    rw [if_pos hr]
    by_cases he : env t.id = true
    · rw [if_pos he]
      show threatCountVal t + 1 ≤ MAX_THREATS_PER_TASK
      omega
    · rw [if_neg he]; exact h
  · rw [if_neg hr]; exact h

theorem runScans_append (l₁ l₂ : List (Int × (Nat → Bool))) (t : Task) :
    runScans (l₁ ++ l₂) t = runScans l₂ (runScans l₁ t) := by
  induction l₁ generalizing t with
  | nil => rfl
  | cons tick rest ih => simp only [List.cons_append, runScans]; exact ih _

theorem runScans_count_le (l : List (Int × (Nat → Bool))) (t : Task) :
    threatCountVal t ≤ threatCountVal (runScans l t) := by
  induction l generalizing t with
  | nil => exact Nat.le_refl _
  | cons tick rest ih =>
    exact Nat.le_trans (scanTask_count_le tick.2 tick.1 t) (ih _)

theorem runScans_count_cap (l : List (Int × (Nat → Bool))) (t : Task)
    (h : threatCountVal t ≤ MAX_THREATS_PER_TASK) :
    threatCountVal (runScans l t) ≤ MAX_THREATS_PER_TASK := by
  induction l generalizing t with
  | nil => exact h
  | cons tick rest ih => exact ih _ (scanTask_count_cap tick.2 tick.1 t h)

/-- Claim C1: for every commitment with `closed=true` or `done=true`,
the escalation scan dispatches no escalation notification and writes no
changes to that row, for any value of `now`.  (`threat_scan` maps
`scanTask` over the table; a `(t, false)` result is "row written back
unchanged, nothing dispatched".) -/
theorem c1_terminal_no_escalation (env : Nat → Bool) (now : Int) (t : Task)
    (h : t.done = true ∨ t.closed = true) :
    scanTask env now t = (t, false) :=
  scanTask_of_not_ready env now t (ready_false_of_terminal now t h)

theorem c1_terminal_no_escalation_witness :
    scanTask (fun _ => true) 999999 exTaskDone = (exTaskDone, false) :=
  c1_terminal_no_escalation (fun _ => true) 999999 exTaskDone (Or.inl rfl)

/-- Claim C2: the escalation decision at instant `now` is true iff the
commitment is not done and not closed, its notification count is below
`MAX_THREATS_PER_TASK`, the readiness gate holds (`now ≥ due_at` when
`due_at` is present, otherwise `now - created_at ≥` the grace
duration), and the cooldown gate holds (`last_threat_at` absent, or
`now - last_threat_at ≥` the cooldown duration).  Stated for rows whose
`created_at` parses and whose optional timestamps are not malformed. -/
theorem c2_escalation_decision_iff (now : Int) (t : Task) (c : Int)
    (hc : t.created_at = TsField.valid c)
    (hdue : t.due_at ≠ TsField.malformed)
    (hlast : t.last_threat_at ≠ TsField.malformed) :
    ready_to_escalate now t = true ↔
      (t.done = false ∧ t.closed = false ∧
       threatCountVal t < MAX_THREATS_PER_TASK ∧
       (∀ d, t.due_at = TsField.valid d → d ≤ now) ∧
       (t.due_at = TsField.absent → THREAT_GRACE_MINUTES * 60 ≤ now - c) ∧
       (∀ l, t.last_threat_at = TsField.valid l →
          THREAT_COOLDOWN_MINUTES * 60 ≤ now - l)) := by
  unfold ready_to_escalate
  rw [hc]
  rcases hd : t.due_at with _ | _ | dv
  · rcases hl : t.last_threat_at with _ | _ | lv
    · simp [parse_iso]; tauto
    · exact absurd hl hlast
    · simp [parse_iso]; tauto
  · exact absurd hd hdue
  · rcases hl : t.last_threat_at with _ | _ | lv
    · simp [parse_iso]; tauto
    · exact absurd hl hlast
    · simp [parse_iso]; tauto

theorem c2_escalation_decision_iff_witness :
    ready_to_escalate 1000000 exTaskOpen = true := by
  refine (c2_escalation_decision_iff 1000000 exTaskOpen 0 rfl (by decide) (by decide)).mpr
    ⟨rfl, rfl, by decide, ?_, ?_, ?_⟩
  · intro d hd
    have hd' : TsField.valid 1000 = TsField.valid d := hd
    cases hd'
    decide
  · intro hab
    exact absurd hab (by decide)
  · intro l hl
    have hl' : TsField.valid 0 = TsField.valid l := hl
    cases hl'
    decide

/-- Claim C3: across any sequence of escalation-scan ticks, a row's
notification count `threat_count` is non-decreasing and never exceeds
`MAX_THREATS_PER_TASK` (for rows that start within the cap, as all
rows created by the bot do: they are inserted with `threat_count=0`). -/
theorem c3_threat_count_monotone_capped (t : Task)
    (h : threatCountVal t ≤ MAX_THREATS_PER_TASK)
    (pre suf : List (Int × (Nat → Bool))) :
    threatCountVal (runScans pre t) ≤ threatCountVal (runScans (pre ++ suf) t) ∧
      threatCountVal (runScans (pre ++ suf) t) ≤ MAX_THREATS_PER_TASK := by
  constructor
  · rw [runScans_append]; exact runScans_count_le suf (runScans pre t)
  · exact runScans_count_cap (pre ++ suf) t h

theorem c3_threat_count_monotone_capped_witness :
    threatCountVal (runScans [] exTaskFresh) ≤
        threatCountVal (runScans ([] ++ [((30000 : Int), fun _ => true)]) exTaskFresh) ∧
      threatCountVal (runScans ([] ++ [((30000 : Int), fun _ => true)]) exTaskFresh) ≤
        MAX_THREATS_PER_TASK :=
  c3_threat_count_monotone_capped exTaskFresh (by decide) [] [((30000 : Int), fun _ => true)]

/-- Claim C7: when the escalation delivery attempt fails for a
commitment, that scan sets `closed=true` and stamps `last_threat_at`
to `now` without touching `threat_count`, and any subsequent
escalation-scan tick performs no further action on that row. -/
theorem c7_delivery_failure_closes (env : Nat → Bool) (now : Int) (t : Task)
    (h1 : ready_to_escalate now t = true) (h2 : env t.id = false) :
    scanTask env now t =
        ({ t with closed := true, last_threat_at := TsField.valid now }, false) ∧
      ({ t with closed := true, last_threat_at := TsField.valid now } : Task).threat_count
          = t.threat_count ∧
      ∀ (env' : Nat → Bool) (now' : Int),
        scanTask env' now' { t with closed := true, last_threat_at := TsField.valid now } =
          ({ t with closed := true, last_threat_at := TsField.valid now }, false) := by
  refine ⟨?_, rfl, ?_⟩
  · unfold scanTask
    rw [if_pos h1, if_neg (by simp [h2])]
  · intro env' now'
    exact scanTask_of_not_ready env' now' _ (ready_false_of_terminal now' _ (Or.inr rfl))

theorem c7_delivery_failure_closes_witness :
    scanTask (fun _ => false) 30000 exTaskFresh =
        ({ exTaskFresh with closed := true, last_threat_at := TsField.valid 30000 }, false) ∧
      ({ exTaskFresh with closed := true, last_threat_at := TsField.valid 30000 } : Task).threat_count
          = exTaskFresh.threat_count ∧
      ∀ (env' : Nat → Bool) (now' : Int),
        scanTask env' now'
            { exTaskFresh with closed := true, last_threat_at := TsField.valid 30000 } =
          ({ exTaskFresh with closed := true, last_threat_at := TsField.valid 30000 }, false) :=
  c7_delivery_failure_closes (fun _ => false) 30000 exTaskFresh (by decide) rfl

/-- Claim C9 counterexample: a row whose `due_at` is malformed is NOT
"treated as not-ready and skipped": `parse_iso` returns `None`, the
scan falls back to the grace gate on `created_at`, and the row is
escalated and written.  Here the task is 100000 s old (grace is
21600 s), so the tick dispatches a notification and updates the row. -/
theorem c9_malformed_due_counterexample :
    exTaskBadDue.due_at = TsField.malformed ∧
      (scanTask (fun _ => true) 100000 exTaskBadDue).2 = true ∧
      (scanTask (fun _ => true) 100000 exTaskBadDue).1 ≠ exTaskBadDue := by
  refine ⟨rfl, ?_, ?_⟩ <;> decide

/-- Claim C9 (amended): a malformed `created_at` makes the escalation
scan skip the row for the tick (no dispatch, no write), and a
malformed `remind_at` makes the reminder scan skip that row while the
rest of the tick proceeds unaffected; but a malformed `due_at` is
treated as an absent deadline (the grace gate on `created_at`
applies), and a malformed `last_threat_at` is treated as no cooldown
constraint.  Nothing raises: parsing failures yield `none`. -/
theorem c9_malformed_timestamps_amended (env : REnv) (tenv : Nat → Bool) (now : Int)
    (t : Task) (r : Reminder) (rs : List Reminder) :
    (t.created_at = TsField.malformed → scanTask tenv now t = (t, false)) ∧
      (r.remind_at = TsField.malformed → r.sent = false →
        reminder_scan env now (r :: rs) =
          (r :: (reminder_scan env now rs).1, (reminder_scan env now rs).2)) ∧
      (t.due_at = TsField.malformed →
        ready_to_escalate now t =
          ready_to_escalate now { t with due_at := TsField.absent }) ∧
      (t.last_threat_at = TsField.malformed →
        ready_to_escalate now t =
          ready_to_escalate now { t with last_threat_at := TsField.absent }) := by
  refine ⟨?_, ?_, ?_, ?_⟩
  · intro h
    apply scanTask_of_not_ready
    unfold ready_to_escalate
    rw [h]
    simp [parse_iso]
  · intro h hs
    simp [reminder_scan, hs, h, parse_iso]
  · intro h
    unfold ready_to_escalate
    rw [h]
    rfl
  · intro h
    unfold ready_to_escalate
    rw [h]
    rfl

theorem c9_malformed_timestamps_amended_witness :
    scanTask (fun _ => true) 0 exTaskBadCreated = (exTaskBadCreated, false) :=
  (c9_malformed_timestamps_amended exREnvAll (fun _ => true) 0 exTaskBadCreated exRemW []).1 rfl

/-- Claim C6 counterexample: `exRemNext` has `sent=false` and
`remind_at ≤ now`, yet the scan makes no delivery attempt for it and
leaves `sent=false`: the earlier row's `bot.fetch_user` raises, the
`try/finally` still marks that earlier row sent, and the exception
aborts the rest of the tick. -/
theorem c6_scan_abort_counterexample :
    exRemNext.sent = false ∧ parse_iso exRemNext.remind_at = some 0 ∧ ((0 : Int) ≤ 0) ∧
      reminder_scan exREnvNoFetch 0 [exRemStale, exRemNext] =
        ([{ exRemStale with sent := true }, exRemNext], [(1, RAttempt.fetchFail)]) := by
  refine ⟨rfl, rfl, by decide, by decide⟩

/-- Claim C6 (amended): for every reminder with `sent=false` and
`remind_at ≤ now` that the scan reaches, the tick makes exactly one
delivery attempt — direct message first, with a best-effort fallback
to the original channel only when the DM send fails — and sets
`sent=true` regardless of the outcome; when resolving the user raises,
the reminder is still marked `sent=true` but the tick aborts, leaving
the remaining rows untouched until the next tick; rows already marked
`sent=true` are never attempted again. -/
theorem c6_reminder_dispatch_amended (env : REnv) (now : Int) (r : Reminder)
    (rs : List Reminder) (d : Int)
    (h0 : r.sent = false) (h1 : parse_iso r.remind_at = some d) (h2 : d ≤ now) :
    (env.fetchOk r.id = true → env.dmOk r.id = true →
      reminder_scan env now (r :: rs) =
        ({ r with sent := true } :: (reminder_scan env now rs).1,
          (r.id, RAttempt.dmSuccess) :: (reminder_scan env now rs).2)) ∧
      (env.fetchOk r.id = true → env.dmOk r.id = false → env.chanOk r.id = true →
        reminder_scan env now (r :: rs) =
          ({ r with sent := true } :: (reminder_scan env now rs).1,
            (r.id, RAttempt.dmFailChanSuccess) :: (reminder_scan env now rs).2)) ∧
      (env.fetchOk r.id = true → env.dmOk r.id = false → env.chanOk r.id = false →
        reminder_scan env now (r :: rs) =
          ({ r with sent := true } :: (reminder_scan env now rs).1,
            (r.id, RAttempt.dmFailChanFail) :: (reminder_scan env now rs).2)) ∧
      (env.fetchOk r.id = false →
        reminder_scan env now (r :: rs) =
          ({ r with sent := true } :: rs, [(r.id, RAttempt.fetchFail)])) ∧
      (∀ rs' : List Reminder, (∀ x ∈ rs', x.sent = true) →
        reminder_scan env now rs' = (rs', [])) := by
  have hnl : ¬ now < d := not_lt.mpr h2
  refine ⟨?_, ?_, ?_, ?_, ?_⟩
  · intro hf hdm
    simp [reminder_scan, h0, h1, hnl, hf, hdm]
  · intro hf hdm hch
    simp [reminder_scan, h0, h1, hnl, hf, hdm, hch]
  · intro hf hdm hch
    simp [reminder_scan, h0, h1, hnl, hf, hdm, hch]
  · intro hf
    simp [reminder_scan, h0, h1, hnl, hf]
  · intro rs' hall
    induction rs' with
    | nil => rfl
    | cons x xs ih =>
      have hx : x.sent = true := hall x (List.mem_cons_self x xs)
      have hxs := ih (fun y hy => hall y (List.mem_cons_of_mem x hy))
      simp [reminder_scan, hx, hxs]

theorem c6_reminder_dispatch_amended_witness :
    reminder_scan exREnvAll 5 [exRemW] =
      ({ exRemW with sent := true } :: (reminder_scan exREnvAll 5 []).1,
        (exRemW.id, RAttempt.dmSuccess) :: (reminder_scan exREnvAll 5 []).2) :=
  (c6_reminder_dispatch_amended exREnvAll 5 exRemW [] 0 rfl rfl (by decide)).1 rfl rfl

theorem lookup_setSentAll (u : String) (d : Int) :
    ∀ cs : List Celebration,
      cs.any (fun c => c.user_id == u && c.task_date == d) = true →
      lookupCeleb (setSentAll cs u d) u d = some true := by
  intro cs
  induction cs with
  | nil => intro h; simp at h
  | cons c cst ih =>
    intro h
    by_cases hk : (c.user_id == u && c.task_date == d) = true
    · simp [setSentAll, lookupCeleb, hk]
    · have hkf : (c.user_id == u && c.task_date == d) = false := by
        simpa using hk
      have h' : cst.any (fun x => x.user_id == u && x.task_date == d) = true := by
        rw [List.any_cons, hkf, Bool.false_or] at h
        exact h
      simpa [setSentAll, lookupCeleb, hkf] using ih h'

theorem lookup_append_new (u : String) (d : Int) :
    ∀ cs : List Celebration,
      cs.any (fun c => c.user_id == u && c.task_date == d) = false →
      lookupCeleb (cs ++ [{ user_id := u, task_date := d, sent := true }]) u d = some true := by
  intro cs
  induction cs with
  | nil =>
    intro _
    simp [lookupCeleb]
  | cons c cst ih =>
    intro h
    rw [List.any_cons, Bool.or_eq_false_iff] at h
    simpa [lookupCeleb, h.1] using ih h.2

theorem lookupCeleb_upsert (cs : List Celebration) (u : String) (d : Int) :
    lookupCeleb (upsertCeleb cs u d) u d = some true := by
  unfold upsertCeleb
  by_cases h : cs.any (fun c => c.user_id == u && c.task_date == d) = true
  · rw [if_pos h]
    exact lookup_setSentAll u d cs h
  · rw [if_neg h]
    exact lookup_append_new u d cs (by simpa using h)

/-- Every branch of the reaction handler either dispatches no
celebration and leaves the `celebrations` table unchanged, or
dispatches one, upserts the `(user, today)` row with `sent=1`, and did
so only because no `sent=1` row existed. -/
theorem reaction_celebrations_cases (tickOk : Bool) (st : Store) (e m uid : String)
    (now today : Int) :
    ((on_raw_reaction_add tickOk st e m uid now today).2 = false ∧
      (on_raw_reaction_add tickOk st e m uid now today).1.celebrations = st.celebrations) ∨
    ((on_raw_reaction_add tickOk st e m uid now today).2 = true ∧
      (on_raw_reaction_add tickOk st e m uid now today).1.celebrations =
        upsertCeleb st.celebrations uid today ∧
      lookupCeleb st.celebrations uid today ≠ some true) := by
  unfold on_raw_reaction_add
  split
  · exact Or.inl ⟨rfl, rfl⟩
  · split
    · exact Or.inl ⟨rfl, rfl⟩
    · split
      · exact Or.inl ⟨rfl, rfl⟩
      · split
        · exact Or.inl ⟨rfl, rfl⟩
        · split
          · rename_i hcond
            refine Or.inr ⟨rfl, rfl, ?_⟩
            rcases hcond.2 with h2 | h2 <;> rw [h2] <;> intro hfalse <;> cases hfalse
          · exact Or.inl ⟨rfl, rfl⟩

/-- Claim C8: at most one celebration per user and calendar day: if a
`sent=1` celebration row exists for `(uid, today)`, a completion event
dispatches no celebration and leaves the table unchanged; and whenever
a celebration is dispatched, the `(uid, today)` row is recorded with
`sent=1`, so every later completion event of that day is a no-op for
celebration. -/
theorem c8_celebration_at_most_once (tickOk : Bool) (st : Store) (e m uid : String)
    (now today : Int) :
    (lookupCeleb st.celebrations uid today = some true →
      (on_raw_reaction_add tickOk st e m uid now today).2 = false ∧
        (on_raw_reaction_add tickOk st e m uid now today).1.celebrations = st.celebrations) ∧
      ((on_raw_reaction_add tickOk st e m uid now today).2 = true →
        lookupCeleb (on_raw_reaction_add tickOk st e m uid now today).1.celebrations uid today
          = some true) := by
  rcases reaction_celebrations_cases tickOk st e m uid now today with ⟨h1, h2⟩ | ⟨h1, h2, h3⟩
  · refine ⟨fun _ => ⟨h1, h2⟩, fun hd => ?_⟩
    rw [hd] at h1
    cases h1
  · refine ⟨fun hlook => absurd hlook h3, fun _ => ?_⟩
    rw [h2]
    exact lookupCeleb_upsert st.celebrations uid today

theorem c8_celebration_at_most_once_witness :
    (on_raw_reaction_add true exStoreCeleb CHECKMARK "m" "u" 0 0).2 = false ∧
      (on_raw_reaction_add true exStoreCeleb CHECKMARK "m" "u" 0 0).1.celebrations =
        exStoreCeleb.celebrations :=
  (c8_celebration_at_most_once true exStoreCeleb CHECKMARK "m" "u" 0 0).1 (by decide)

/-- Claim C10: a completion reaction marks a task done only when the
emoji is the checkmark, a task row matches the message, and the
reacting user is that row's owner; in every other case the store is
returned entirely unchanged; and a repeated reaction on an
already-done task writes nothing to the tasks table (no overwrite of
`done` or `completed_at`). -/
theorem c10_reaction_guards (tickOk : Bool) (st : Store) (e m uid : String)
    (now today : Int) :
    (e ≠ CHECKMARK → on_raw_reaction_add tickOk st e m uid now today = (st, false)) ∧
      (st.tasks.find? (fun t => t.message_id == m) = none →
        on_raw_reaction_add tickOk st e m uid now today = (st, false)) ∧
      (∀ row, st.tasks.find? (fun t => t.message_id == m) = some row →
        uid ≠ row.user_id →
        on_raw_reaction_add tickOk st e m uid now today = (st, false)) ∧
      (∀ row, st.tasks.find? (fun t => t.message_id == m) = some row → row.done = true →
        (on_raw_reaction_add tickOk st e m uid now today).1.tasks = st.tasks) := by
  refine ⟨?_, ?_, ?_, ?_⟩
  · intro he
    unfold on_raw_reaction_add
    rw [if_pos he]
  · intro hf
    unfold on_raw_reaction_add
    split
    · rfl
    · split
      · rfl
      · rename_i row' heq
        rw [hf] at heq
        cases heq
  · intro row hf hu
    unfold on_raw_reaction_add
    split
    · rfl
    · split
      · rfl
      · rename_i row' heq
        rw [hf] at heq
        injection heq with heq'
        subst heq'
        rw [if_pos hu]
  · intro row hf hdone
    have hmark : markDone st.tasks m now row = st.tasks := by
      unfold markDone
      rw [if_pos hdone]
    unfold on_raw_reaction_add
    split
    · rfl
    · split
      · rfl
      · rename_i row' heq
        rw [hf] at heq
        injection heq with heq'
        subst heq'
        split
        · rfl
        · split
          · exact hmark
          · split
            · exact hmark
            · exact hmark

theorem c10_reaction_guards_witness :
    on_raw_reaction_add true exStoreTasks "x" "m2" "u" 0 0 = (exStoreTasks, false) :=
  (c10_reaction_guards true exStoreTasks "x" "m2" "u" 0 0).1 (by decide)

theorem count_pred_eq (uid : String) (day : Int) (t : Task) :
    (t.user_id == uid && t.done && (sqlDate t.completed_at == some day)) =
      decide (t.user_id = uid ∧ t.done = true ∧ completedOnUtcDay t day) := by
  rw [Bool.eq_iff_iff]
  rcases ht : t.completed_at with _ | _ | c <;>
    simp [sqlDate, completedOnUtcDay, ht, and_assoc]

/-- Claim C5 counterexample: with the configured zone at UTC-5 (New
York standard time), a task completed at 01:00 UTC of day 0 falls on
local day -1, yet the code's count (SQLite `DATE` of the stored UTC
timestamp compared to the day label) counts it for day 0: the count is
not "completions whose `completed_at` falls on the given calendar day
in the configured time zone". -/
theorem c5_local_day_counterexample :
    exTaskC5.done = true ∧ exTaskC5.completed_at = TsField.valid 3600 ∧
      sqlDateLocal NY_OFFSET exTaskC5.completed_at = some (-1) ∧
      done_count [exTaskC5] "" 0 = 1 ∧
      done_count_spec NY_OFFSET [exTaskC5] "" 0 = 0 := by
  refine ⟨rfl, rfl, ?_, ?_, ?_⟩ <;> decide

/-- Claim C5 (amended): the celebration check's `done_count` and the
streak calculator's per-day test count exactly the commitments with
`done=true` owned by the user whose `completed_at` falls on the given
day taken as a UTC calendar day (the day SQLite `DATE` extracts from
the stored UTC timestamp) — not the calendar day in the configured
time zone. -/
theorem c5_done_count_amended (tasks : List Task) (uid : String) (day : Int) :
    done_count tasks uid day =
        (tasks.filter (fun t =>
          decide (t.user_id = uid ∧ t.done = true ∧ completedOnUtcDay t day))).length ∧
      (completed_on_date tasks uid day = true ↔
        ∃ t, t ∈ tasks ∧ t.user_id = uid ∧ t.done = true ∧ completedOnUtcDay t day) := by
  constructor
  · unfold done_count
    congr 1
    exact List.filter_congr (fun t _ => count_pred_eq uid day t)
  · unfold completed_on_date
    rw [List.any_eq_true]
    constructor
    · rintro ⟨t, ht, hp⟩
      rw [count_pred_eq uid day t] at hp
      exact ⟨t, ht, of_decide_eq_true hp⟩
    · rintro ⟨t, ht, hp⟩
      refine ⟨t, ht, ?_⟩
      rw [count_pred_eq uid day t]
      exact decide_eq_true hp

theorem c5_done_count_amended_witness :
    completed_on_date [exTaskC5] "" 0 = true ↔
      ∃ t, t ∈ [exTaskC5] ∧ t.user_id = "" ∧ t.done = true ∧ completedOnUtcDay t 0 :=
  (c5_done_count_amended [exTaskC5] "" 0).2

theorem streakAux_zero (p : Int → Bool) (d : Int) : streakAux p 0 d = 0 := rfl

theorem streakAux_succ (p : Int → Bool) (n : Nat) (d : Int) :
    streakAux p (n + 1) d = if p d = true then streakAux p n (d - 1) + 1 else 0 := rfl

theorem streakAux_all (p : Int → Bool) :
    ∀ (n : Nat) (d : Int), (∀ k : Nat, k < n → p (d - k) = true) → streakAux p n d = n := by
  intro n
  induction n with
  | zero => intro d _; rfl
  | succ m ih =>
    intro d h
    have h0 : p d = true := by
      have := h 0 (Nat.succ_pos m)
      simpa using this
    have hrec : streakAux p m (d - 1) = m := by
      apply ih
      intro k hk
      have h1 := h (k + 1) (by omega)
      have hcast : ((k + 1 : Nat) : Int) = (k : Int) + 1 := by push_cast; ring
      rw [hcast] at h1
      have he : d - ((k : Int) + 1) = d - 1 - (k : Int) := by ring
      rw [he] at h1
      exact h1
    rw [streakAux_succ, if_pos h0, hrec]

theorem streakAux_min (p : Int → Bool) :
    ∀ (m n : Nat), m ≤ n → ∀ d : Int, streakAux p m d = min m (streakAux p n d) := by
  intro m
  induction m with
  | zero => intro n _ d; rw [streakAux_zero]; omega
  | succ m ih =>
    intro n hmn d
    obtain ⟨n', rfl⟩ : ∃ n', n = n' + 1 := ⟨n - 1, by omega⟩
    rw [streakAux_succ, streakAux_succ]
    by_cases hp : p d = true
    · rw [if_pos hp, if_pos hp, ih n' (by omega) (d - 1)]
      omega
    · rw [if_neg hp, if_neg hp]
      omega

theorem completed_streakTasks (d : Int) :
    completed_on_date streakTasks "" d = true ↔ 0 ≤ d ∧ d < 366 := by
  unfold completed_on_date streakTasks
  rw [List.any_eq_true]
  constructor
  · rintro ⟨t, ht, hp⟩
    rw [List.mem_map] at ht
    obtain ⟨k, hk, rfl⟩ := ht
    rw [List.mem_range] at hk
    simp only [mkStreakTask, Bool.and_eq_true, beq_iff_eq, sqlDate,
      Option.some.injEq, utcDay] at hp
    have hc : Int.fdiv (86400 * (k : Int)) 86400 = (k : Int) :=
      Int.mul_fdiv_cancel_left _ (by norm_num)
    rw [hc] at hp
    omega
  · rintro ⟨h0, h366⟩
    refine ⟨mkStreakTask d.toNat, ?_, ?_⟩
    · rw [List.mem_map]
      exact ⟨d.toNat, by rw [List.mem_range]; omega, rfl⟩
    · simp only [mkStreakTask, Bool.and_eq_true, beq_iff_eq, sqlDate,
        Option.some.injEq, utcDay]
      rw [Int.mul_fdiv_cancel_left _ (by norm_num)]
      refine ⟨by simp, by omega⟩

/-- Claim C4 counterexample: the unbounded recurrence fails at the
364-iteration lookback cap.  With a completion on every UTC day
0..365, `compute_streak` at day 365 stops at the cap and returns 365,
but `1 + compute_streak` at day 364 is 366, so
`streak(day) = 1 + streak(day-1)` does not hold even though a
completion exists on day 365. -/
theorem c4_streak_recurrence_counterexample :
    completed_on_date streakTasks "" 365 = true ∧
      compute_streak streakTasks "" 365 ≠ 1 + compute_streak streakTasks "" 364 := by
  have h365 : compute_streak streakTasks "" 365 = 365 := by
    unfold compute_streak
    apply streakAux_all
    intro k hk
    rw [completed_streakTasks]
    omega
  have h364 : compute_streak streakTasks "" 364 = 365 := by
    unfold compute_streak
    apply streakAux_all
    intro k hk
    rw [completed_streakTasks]
    omega
  constructor
  · rw [completed_streakTasks]
    omega
  · rw [h365, h364]
    omega

/-- Claim C4 (amended): `streak(user, day)` is 0 if no completion
exists on `day`, and equals `min 365 (1 + streak(user, day-1))` if a
completion exists on `day`: the recurrence holds capped by the
365-iteration lookback bound. -/
theorem c4_streak_recurrence_amended (tasks : List Task) (uid : String) (d : Int) :
    (completed_on_date tasks uid d = false → compute_streak tasks uid d = 0) ∧
      (completed_on_date tasks uid d = true →
        compute_streak tasks uid d = min 365 (1 + compute_streak tasks uid (d - 1))) := by
  constructor
  · intro h
    unfold compute_streak
    rw [show (365 : Nat) = 364 + 1 from rfl, streakAux_succ,
      if_neg (by rw [h]; exact Bool.false_ne_true)]
  · intro h
    unfold compute_streak
    have hstep : streakAux (completed_on_date tasks uid) 365 d =
        streakAux (completed_on_date tasks uid) 364 (d - 1) + 1 := by
      rw [show (365 : Nat) = 364 + 1 from rfl, streakAux_succ, if_pos h]
    rw [hstep, streakAux_min (completed_on_date tasks uid) 364 365 (by omega) (d - 1)]
    omega

theorem c4_streak_recurrence_amended_witness :
    completed_on_date [exTaskC4] "" 0 = true ∧
      compute_streak [exTaskC4] "" 0 = min 365 (1 + compute_streak [exTaskC4] "" (-1)) :=
  ⟨by decide, (c4_streak_recurrence_amended [exTaskC4] "" 0).2 (by decide)⟩

end Madsminder
